import Mathlib

/-!
Verification of the network-logging module of simplemonitor
(`src/Loggers/network.py`): the authenticated wire protocol with its
batching sender (`NetworkLogger`) and receiver loop (`Listener`).

Bytes are modelled as `List Nat` (each element a byte value).  The keyed
digest (`hmac.new(key, msg)` in the source) is abstracted as a `DigestFn`:
a function from key and message to a digest whose length is the fixed
`digest_size` of the algorithm, exactly the two facts the source relies on
(`mac.digest_size` in `struct.pack('B', mac.digest_size)` and
`mac.digest()`).
-/

namespace NetworkLogging

/-- A keyed digest algorithm: `digest key msg` is the byte string
`hmac.new(key, msg).digest()`, and `size` is `mac.digest_size`, the fixed
output length of the algorithm. -/
structure DigestFn where
  digest : List Nat → List Nat → List Nat
  size : Nat
  size_eq : ∀ k m, (digest k m).length = size

/-- Frame construction, from `NetworkLogger.process_batch` (network.py
lines 75-76): `struct.pack('B', mac.digest_size) + mac.digest() + p`.
`struct.pack('B', n)` raises for `n > 255`, modelled by `none`. -/
def encode (D : DigestFn) (key payload : List Nat) : Option (List Nat) :=
  if D.size ≤ 255 then some (D.size :: (D.digest key payload ++ payload)) else none

/-- The two ways frame decoding fails in `Listener.run`:
`frameTooShort` is the `ValueError` raised when `serialized[0]` hits an
`IndexError` (lines 130, 137-138), `authMismatch` is the `Exception`
raised when `hmac.compare_digest` reports a mismatch (lines 143-144). -/
inductive DecodeError where
  | frameTooShort : DecodeError
  | authMismatch : DecodeError
deriving DecidableEq, Repr

/-- Frame decoding and verification, from `Listener.run` (network.py lines
129-144): `mac_size = serialized[0]` (IndexError on empty input only —
Python slicing never raises), `their_digest = serialized[1:mac_size+1]`,
the payload is `serialized[mac_size+1:]`, the digest is recomputed over
the payload and compared with `hmac.compare_digest`. -/
def decode (D : DigestFn) (key framed : List Nat) : Except DecodeError (List Nat) :=
  match framed with
  | [] => .error .frameTooShort
  | macSize :: rest =>
    let theirDigest := rest.take macSize
    let payload := rest.drop macSize
    let myDigest := D.digest key payload
    if theirDigest = myDigest then .ok payload else .error .authMismatch

/-- A concrete toy digest algorithm with 2-byte output, used to evaluate
the codec on closed inputs. -/
def testDigest : DigestFn where
  digest := fun k m => [(k.sum + m.sum) % 256, (k.length + m.length) % 256]
  size := 2
  size_eq := fun _ _ => rfl

/-- A concrete toy digest algorithm with 32-byte output, matching the
spec's "32-byte digest function" in its concrete vector. -/
def digest32 : DigestFn where
  digest := fun k m => List.replicate 32 ((k.sum + m.sum) % 256)
  size := 32
  size_eq := fun _ _ => List.length_replicate 32 _

/-- The UTF-8 key bytes, from `bytearray(key, 'utf-8')`; faithful for the
ASCII keys used throughout. -/
def strToBytes (s : String) : List Nat :=
  s.toList.map Char.toNat

/-- Errors raised at construction time: `util.LoggerConfigurationError`
(receiver, network.py line 98) and the configuration errors of
`Logger.get_config_option` (sender, lines 34-54). -/
inductive ConfigError where
  | configurationError : ConfigError
deriving DecidableEq, Repr

/-- Receiver state, from `Listener.__init__` and `Listener.run`: the UTF-8
key bytes, the stored `allow_pickle` flag, the `running` flag and whether
`self.sock` has been closed. -/
structure ListenerState where
  key : List Nat
  allow_pickle : Bool
  running : Bool
  sockClosed : Bool
deriving DecidableEq, Repr

/-- Receiver construction, from `Listener.__init__` (network.py lines
92-106): `key=None` and `allow_pickle=True` are the Python defaults; a
missing (`None`) or empty key raises `LoggerConfigurationError` before any
socket work on the data path; `running` starts out `False`. -/
def listenerInit (key : Option String) (allow_pickle : Bool := true) :
    Except ConfigError ListenerState :=
  match key with
  | none => .error .configurationError
  | some k =>
      if k = "" then .error .configurationError
      else .ok { key := strToBytes k, allow_pickle := allow_pickle,
                 running := false, sockClosed := false }

/-- Payload deserialization, from `Listener.run` lines 145-148:
`util.json_loads` is attempted and, on `JSONDecodeError`, the code falls
back to `pickle.loads` unconditionally — the stored `allow_pickle` flag is
never consulted there.  A parser returning `none` models it raising; a
`pickle.loads` failure propagates to the loop's outer handler. -/
def deserialize {α : Type} (jsonLoads pickleLoads : List Nat → Option α)
    (allow_pickle : Bool) (b : List Nat) : Option α :=
  match jsonLoads b with
  | some r => some r
  | none => pickleLoads b

/-- The `except socket.error` handler of `Listener.run` (network.py lines
153-164): `fail_info[1][0]` is the first positional argument of the caught
exception; when the argument tuple is empty the resulting `IndexError` is
passed over; when the first argument equals 4 (interrupted system call)
the handler sets `running` to `False` and closes the socket; any other
code only logs. -/
def handleSocketError (errArgs : List Nat) (s : ListenerState) : ListenerState :=
  match errArgs with
  | [] => s
  | code :: _ =>
      if code = 4 then { s with running := false, sockClosed := true } else s

/-- What one trip round the `while self.running` loop observes: a
completed connection whose accumulated received bytes are `data`, a
`socket.error` carrying the given positional arguments, or any other
exception out of the accept/recv phase. -/
inductive SockEvent where
  | conn (data : List Nat)
  | sockErr (errArgs : List Nat)
  | otherExc
deriving DecidableEq, Repr

/-- One iteration of `Listener.run` (network.py lines 115-166).
`jsonLoads`/`pickleLoads` model `util.json_loads`/`pickle.loads` and
`aggregatorOk r` models whether `simplemonitor.update_remote_monitor`
succeeds on `r`.  Decode failures (the `ValueError` and the mismatched-MAC
`Exception`) and deserialization failures land in the outer
`except Exception` handler, which only logs; aggregator failures are
caught by the inner handler at lines 149-152; socket errors go through
`handleSocketError`.  The second component is the result delivered to the
aggregator, if any. -/
def loopStep {α : Type} (D : DigestFn)
    (jsonLoads pickleLoads : List Nat → Option α) (aggregatorOk : α → Bool)
    (s : ListenerState) (ev : SockEvent) : ListenerState × Option α :=
  match ev with
  | .conn data =>
      match decode D s.key data with
      | .error _ => (s, none)
      | .ok payload =>
          match deserialize jsonLoads pickleLoads s.allow_pickle payload with
          | none => (s, none)
          | some r => (s, if aggregatorOk r then some r else none)
  | .sockErr errArgs => (handleSocketError errArgs s, none)
  | .otherExc => (s, none)

/-- A monitor as the sender sees it, from `NetworkLogger.save_result2`
(network.py lines 59-70): its `name` attribute, its class name
(`monitor.__class__.__name__`) and the result of `to_python_dict()`,
with `none` modelling that call raising.  `ρ` is the opaque serializable
state structure. -/
structure Monitor (ρ : Type) where
  name : String
  clsName : String
  to_python_dict : Option ρ
deriving DecidableEq, Repr

/-- Python-dict insertion: overwrites the value at an existing key in
place, appends a new key at the end. -/
def dictInsert {β : Type} (k : String) (v : β) :
    List (String × β) → List (String × β)
  | [] => [(k, v)]
  | (k', v') :: rest =>
      if k' = k then (k, v) :: rest else (k', v') :: dictInsert k v rest

/-- Python-dict lookup. -/
def dictLookup {β : Type} (k : String) : List (String × β) → Option β
  | [] => none
  | (k', v') :: rest => if k' = k then some v' else dictLookup k rest

/-- Sender state, from `NetworkLogger.__init__` plus the batching fields
`batch_data` and `doing_batch` inherited from the `Logger` base class.
A batch entry maps a monitor name to its class name and serialized
state. -/
structure SenderState (ρ : Type) where
  host : String
  port : Int
  key : List Nat
  batch_data : List (String × String × ρ)
  doing_batch : Bool
deriving DecidableEq, Repr

/-- Batch accumulation, from `NetworkLogger.save_result2` (network.py
lines 59-70): a no-op outside a batch; otherwise assigns
`batch_data[monitor.name]` — the key is the monitor's own `name`
attribute, not the `name` parameter — and catches any exception from
`to_python_dict()`, leaving the batch unchanged. -/
def save_result2 {ρ : Type} (s : SenderState ρ) (name : String)
    (monitor : Monitor ρ) : SenderState ρ :=
  if s.doing_batch = false then s
  else
    match monitor.to_python_dict with
    | none => s
    | some d =>
        { s with batch_data :=
            dictInsert monitor.name (monitor.clsName, d) s.batch_data }

/-- Batch flush, from `NetworkLogger.process_batch` (network.py lines
72-84): serialize the batch (`util.json_dumps`, `none` models it
raising), frame it with the keyed digest, open a connection and send
(`transportOk` models connect/send/close succeeding); every failure is
caught and only logged.  The second component is the frame actually sent,
if any.  No branch assigns to `batch_data`. -/
def process_batch {ρ : Type} (D : DigestFn)
    (json_dumps : List (String × String × ρ) → Option (List Nat))
    (transportOk : List Nat → Bool) (s : SenderState ρ) :
    SenderState ρ × Option (List Nat) :=
  match json_dumps s.batch_data with
  | none => (s, none)
  | some p =>
      match encode D s.key p with
      | none => (s, none)
      | some frame => (s, if transportOk frame then some frame else none)

/-- Modelled from the spec: `Logger.start_batch` lives in the `Logger`
base class, which is not under src/.  Per the spec's lifecycle, a batch
"is created empty at the start of an accumulation cycle", so starting a
batch resets the accumulator and enters the accumulating state. -/
def start_batch {ρ : Type} (s : SenderState ρ) : SenderState ρ :=
  { s with batch_data := [], doing_batch := true }

/-- A raw configuration value as handed to `Logger.get_config_option`. -/
inductive ConfigValue where
  | str (s : String)
  | int (n : Int)
  | missing
deriving DecidableEq, Repr

/-- Modelled from the spec: `Logger.get_config_option` lives in the
`Logger` base class, which is not under src/.  Per the spec, the sender's
`host` and `key` are required non-empty strings; a missing value, a
non-string value, or an empty string when emptiness is disallowed is a
ConfigurationError, fatal at startup. -/
def getConfigStr (v : ConfigValue) (allowEmpty : Bool) :
    Except ConfigError String :=
  match v with
  | .str s => if s = "" ∧ allowEmpty = false then .error .configurationError
              else .ok s
  | .int _ => .error .configurationError
  | .missing => .error .configurationError

/-- Modelled from the spec: `Logger.get_config_option` with
`required_type='int'` — the sender's `port` must be an integer; anything
else is a ConfigurationError, fatal at startup. -/
def getConfigInt (v : ConfigValue) : Except ConfigError Int :=
  match v with
  | .int n => .ok n
  | .str _ => .error .configurationError
  | .missing => .error .configurationError

/-- Sender construction, from `NetworkLogger.__init__` (network.py lines
31-54): fetch `host` (required, non-empty), `port` (required integer) and
`key` (required, non-empty, stored as UTF-8 bytes), in that order, any
failure surfacing immediately; batching fields start idle. -/
def networkLoggerInit {ρ : Type} (host port key : ConfigValue) :
    Except ConfigError (SenderState ρ) :=
  match getConfigStr host false with
  | .error e => .error e
  | .ok h =>
      match getConfigInt port with
      | .error e => .error e
      | .ok p =>
          match getConfigStr key false with
          | .error e => .error e
          | .ok k =>
              .ok { host := h, port := p, key := strToBytes k,
                    batch_data := [], doing_batch := false }

/-- A concrete receiver state whose loop is running, for closed
evaluations. -/
def listenerRunning : ListenerState :=
  { key := strToBytes "testkey", allow_pickle := true,
    running := true, sockClosed := false }

/-- A concrete sender state holding one accumulated record, for closed
evaluations. -/
def sampleSender : SenderState Nat :=
  { host := "h", port := 1234, key := strToBytes "testkey",
    batch_data := [("m1", ("MonitorA", 7))], doing_batch := true }

/-- A concrete sender state in the accumulating phase with an empty
batch, for closed evaluations. -/
def senderAccumulating : SenderState Nat :=
  { host := "h", port := 1234, key := strToBytes "testkey",
    batch_data := [], doing_batch := true }

/-- The UTF-8 bytes of the spec's concrete test key `"testkey"`. -/
def testkeyBytes : List Nat := strToBytes "testkey"

/-- The 7 bytes of the spec's concrete JSON payload. -/
def jsonVector : List Nat := [123, 34, 97, 34, 58, 49, 125]

theorem decode_encode (D : DigestFn) (key payload : List Nat)
    (hs : D.size ≤ 255) :
    ∃ f, encode D key payload = some f ∧ decode D key f = .ok payload := by
  refine ⟨D.size :: (D.digest key payload ++ payload), ?_, ?_⟩
  · simp [encode, hs]
  · have hlen : (D.digest key payload).length = D.size := D.size_eq key payload
    simp only [decode]
    rw [show (D.digest key payload ++ payload).take D.size =
          (D.digest key payload ++ payload).take (D.digest key payload).length by rw [hlen],
        show (D.digest key payload ++ payload).drop D.size =
          (D.digest key payload ++ payload).drop (D.digest key payload).length by rw [hlen],
        List.take_left, List.drop_left]
    simp

/-- C1: For every byte-sequence payload P and every non-empty key K,
decoding the frame produced by `encode(P, K)` with the same key K succeeds
and returns exactly P: encode prepends the one-byte digest length and the
keyed digest, decode strips and verifies them. -/
theorem C1_roundtrip (D : DigestFn) (key payload : List Nat)
    (hk : key ≠ []) (hs : D.size ≤ 255) :
    ∃ f, encode D key payload = some f ∧ decode D key f = .ok payload :=
  decode_encode D key payload hs

theorem C1_roundtrip_witness :
    ∃ f, encode testDigest [1, 2] [10, 20, 30] = some f ∧
      decode testDigest [1, 2] f = .ok [10, 20, 30] :=
  C1_roundtrip testDigest [1, 2] [10, 20, 30] (by decide) (by decide)

theorem dictLookup_dictInsert {β : Type} (k : String) (v : β)
    (l : List (String × β)) : dictLookup k (dictInsert k v l) = some v := by
  induction l with
  | nil => simp [dictInsert, dictLookup]
  | cons hd tl ih =>
      obtain ⟨k', v'⟩ := hd
      by_cases h : k' = k
      · simp [dictInsert, dictLookup, h]
      · simp [dictInsert, dictLookup, h, ih]

theorem loopStep_conn_fst {α : Type} (D : DigestFn)
    (jsonLoads pickleLoads : List Nat → Option α) (aggregatorOk : α → Bool)
    (s : ListenerState) (data : List Nat) :
    (loopStep D jsonLoads pickleLoads aggregatorOk s (.conn data)).1 = s := by
  cases hd : decode D s.key data with
  | error e => simp [loopStep, hd]
  | ok payload =>
      cases hds : deserialize jsonLoads pickleLoads s.allow_pickle payload with
      | none => simp [loopStep, hd, hds]
      | some r => simp [loopStep, hd, hds]

/-- C2, counterexample: on bytes that fail JSON parsing but parse as
pickle, `deserialize` returns the pickle result even though the
allow-legacy-format flag is false (the code never consults it), and a
receiver constructed without passing the flag stores `allow_pickle =
true` — the default is enabled, not disabled. -/
theorem C2_cex :
    deserialize (fun _ => (none : Option Nat)) (fun _ => some 42) false [0] =
        some 42 ∧
      listenerInit (some "k") =
        .ok { key := strToBytes "k", allow_pickle := true,
              running := false, sockClosed := false } :=
  ⟨rfl, rfl⟩

/-- C2, amended: whenever the primary (JSON) parse fails, `deserialize`
returns the legacy (pickle) parser's result regardless of the
allow-legacy-format flag, which is stored but never consulted; and the
flag defaults to enabled (`allow_pickle=True`). -/
theorem C2_fallback_unconditional {α : Type}
    (jsonLoads pickleLoads : List Nat → Option α) (flag : Bool)
    (b : List Nat) (k : String) (hj : jsonLoads b = none) (hk : ¬k = "") :
    deserialize jsonLoads pickleLoads flag b = pickleLoads b ∧
      listenerInit (some k) =
        .ok { key := strToBytes k, allow_pickle := true,
              running := false, sockClosed := false } := by
  constructor
  · simp [deserialize, hj]
  · simp [listenerInit, hk]

theorem C2_fallback_unconditional_witness :
    deserialize (fun _ => (none : Option Nat)) (fun _ => some 7) true [1] =
        (fun _ => (some 7 : Option Nat)) [1] ∧
      listenerInit (some "testkey") =
        .ok { key := strToBytes "testkey", allow_pickle := true,
              running := false, sockClosed := false } :=
  C2_fallback_unconditional (fun _ => none) (fun _ => some 7) true [1]
    "testkey" rfl (by decide)

/-- C3, counterexample: the frame `[2]` (a single byte claiming a
2-byte digest) has fewer than `1 + digestLength` bytes, yet `decode`
fails with the authentication mismatch, not with FrameTooShortError:
Python slicing never raises, so only the empty frame hits the
`IndexError` path. -/
theorem C3_cex :
    ([2] : List Nat).length < 1 + 2 ∧
      decode testDigest (strToBytes "testkey") [2] = .error .authMismatch := by
  constructor
  · decide
  · rfl

/-- C3, amended: `decode` fails with FrameTooShortError exactly when the
framed input is empty; any non-empty frame — however short relative to
its claimed digest length — proceeds to the digest comparison instead
(and so fails, if at all, with the authentication mismatch). -/
theorem C3_frameTooShort_iff_empty (D : DigestFn) (key framed : List Nat) :
    decode D key framed = .error .frameTooShort ↔ framed = [] := by
  cases framed with
  | nil => simp [decode]
  | cons b rest =>
      simp only [decode]
      split <;> simp

/-- C4, counterexample: two accept failures hitting a receiver in the
identical running state (no stop requested in either) are classified
purely by the failure's first positional error code: code 4 exits the
loop, code 5 continues it — the decision inspects failure content, and
the errno-4 failure exits even though no stop was requested. -/
theorem C4_cex :
    (handleSocketError [4] listenerRunning).running = false ∧
      (handleSocketError [5] listenerRunning).running = true := by
  decide

/-- C4, amended: after a socket error the loop stops exactly when the
failure's first positional argument is 4 (interrupted system call) or it
had already stopped; there is no separate stop indicator — the
shutdown-vs-transient decision is made by inspecting the error code
carried by the failure. -/
theorem C4_stop_decided_by_error_code (errArgs : List Nat)
    (s : ListenerState) :
    (handleSocketError errArgs s).running = false ↔
      (s.running = false ∨ ∃ rest, errArgs = 4 :: rest) := by
  cases errArgs with
  | nil => simp [handleSocketError]
  | cons c rest =>
      by_cases hc : c = 4
      · subst hc
        simp [handleSocketError]
      · simp [handleSocketError, hc]

/-- C5, counterexample: flushing a sender holding one accumulated record
leaves that record in the accumulator, both when the whole transaction
fails (serialization returning nothing) and when it succeeds —
`process_batch` never clears `batch_data`. -/
theorem C5_cex :
    (process_batch testDigest (fun _ => none) (fun _ => false)
        sampleSender).1.batch_data ≠ [] ∧
      (process_batch testDigest (fun _ => some [1]) (fun _ => true)
        sampleSender).1.batch_data ≠ [] := by
  decide

/-- C5, amended: flush (`process_batch`) leaves the sender state,
including the batch accumulator, completely unchanged whether
serialization, framing or transport succeed or fail; the accumulator is
instead reset by `start_batch` at the start of the next accumulation
cycle, so that cycle still begins from an empty batch. -/
theorem C5_flush_preserves_batch {ρ : Type} (D : DigestFn)
    (json_dumps : List (String × String × ρ) → Option (List Nat))
    (transportOk : List Nat → Bool) (s t : SenderState ρ) :
    (process_batch D json_dumps transportOk s).1 = s ∧
      (start_batch t).batch_data = [] := by
  constructor
  · cases hj : json_dumps s.batch_data with
    | none => simp [process_batch, hj]
    | some p =>
        cases he : encode D s.key p with
        | none => simp [process_batch, hj, he]
        | some frame => simp [process_batch, hj, he]
  · rfl

/-- C6, counterexample: saving a monitor whose own `name` attribute is
`"x"` under the caller-passed name `"y"` updates the batch at `"x"` and
leaves `"y"` absent — the code keys the batch by `monitor.name`, not by
the `name` parameter. -/
theorem C6_cex :
    dictLookup "y" (save_result2 senderAccumulating "y"
        (Monitor.mk "x" "MonitorA" (some 7))).batch_data = none ∧
      dictLookup "x" (save_result2 senderAccumulating "y"
        (Monitor.mk "x" "MonitorA" (some 7))).batch_data =
        some ("MonitorA", 7) := by
  decide

/-- C6, amended: while accumulating, `save_result2` inserts or overwrites
the batch entry at the monitor's own `name` attribute (which coincides
with the passed name only when the caller passes `monitor.name`), and a
failure serializing the record is caught and leaves the sender state
unchanged, so accumulation continues. -/
theorem C6_keyed_by_monitor_name {ρ : Type} (s : SenderState ρ)
    (name : String) (m : Monitor ρ) (d : ρ)
    (hb : s.doing_batch = true) (hd : m.to_python_dict = some d) :
    dictLookup m.name (save_result2 s name m).batch_data =
        some (m.clsName, d) ∧
      save_result2 s name { m with to_python_dict := none } = s := by
  constructor
  · simp [save_result2, hb, hd, dictLookup_dictInsert]
  · simp [save_result2, hb]

theorem C6_keyed_by_monitor_name_witness :
    dictLookup "x" (save_result2 senderAccumulating "x"
        (Monitor.mk "x" "MonitorA" (some 7))).batch_data =
        some ("MonitorA", 7) ∧
      save_result2 senderAccumulating "x"
        { Monitor.mk "x" "MonitorA" (some 7) with to_python_dict := none } =
        senderAccumulating :=
  C6_keyed_by_monitor_name senderAccumulating "x"
    (Monitor.mk "x" "MonitorA" (some 7)) 7 rfl rfl

/-- C7: with key `"testkey"` and the 7-byte payload of the spec's
concrete vector, any configured digest algorithm with 32-byte output
makes `encode` produce exactly 40 bytes — the single byte 32, the 32
digest bytes, then the 7 payload bytes — and `decode` on that frame
succeeds and returns the original payload. -/
theorem C7_concrete_vector (D : DigestFn) (h32 : D.size = 32) :
    encode D testkeyBytes jsonVector =
        some (32 :: (D.digest testkeyBytes jsonVector ++ jsonVector)) ∧
      (32 :: (D.digest testkeyBytes jsonVector ++ jsonVector)).length = 40 ∧
      decode D testkeyBytes
        (32 :: (D.digest testkeyBytes jsonVector ++ jsonVector)) =
        .ok jsonVector := by
  have hs : D.size ≤ 255 := by omega
  have henc : encode D testkeyBytes jsonVector =
      some (32 :: (D.digest testkeyBytes jsonVector ++ jsonVector)) := by
    simp [encode, hs, h32]
  obtain ⟨f, hf, hd⟩ := decode_encode D testkeyBytes jsonVector hs
  have hfe : f = 32 :: (D.digest testkeyBytes jsonVector ++ jsonVector) := by
    rw [henc] at hf
    exact (Option.some.inj hf).symm
  refine ⟨henc, ?_, hfe ▸ hd⟩
  have hlen := D.size_eq testkeyBytes jsonVector
  have hjlen : jsonVector.length = 7 := rfl
  simp only [List.length_cons, List.length_append, hlen, h32, hjlen]

theorem C7_concrete_vector_witness :
    encode digest32 testkeyBytes jsonVector =
        some (32 :: (digest32.digest testkeyBytes jsonVector ++ jsonVector)) ∧
      (32 :: (digest32.digest testkeyBytes jsonVector ++ jsonVector)).length =
        40 ∧
      decode digest32 testkeyBytes
        (32 :: (digest32.digest testkeyBytes jsonVector ++ jsonVector)) =
        .ok jsonVector :=
  C7_concrete_vector digest32 rfl

/-- C8: a completed-connection iteration leaves the receiver state
untouched whatever happens inside it — decode failure, deserialization
failure, or aggregator failure — and a running loop's step ends with
`running = false` exactly when the event is the socket error whose first
positional argument is 4, the interrupted-system-call failure the module
documents as the main app killing the thread (its explicit shutdown
signal). -/
theorem C8_per_message_isolation {α : Type} (D : DigestFn)
    (jsonLoads pickleLoads : List Nat → Option α) (aggregatorOk : α → Bool)
    (s : ListenerState) (data : List Nat) (ev : SockEvent)
    (hs : s.running = true) :
    (loopStep D jsonLoads pickleLoads aggregatorOk s (.conn data)).1 = s ∧
      ((loopStep D jsonLoads pickleLoads aggregatorOk s ev).1.running = false ↔
        ∃ rest, ev = .sockErr (4 :: rest)) := by
  refine ⟨loopStep_conn_fst D jsonLoads pickleLoads aggregatorOk s data, ?_⟩
  cases ev with
  | conn d =>
      rw [loopStep_conn_fst]
      simp [hs]
  | sockErr errArgs =>
      cases errArgs with
      | nil => simp [loopStep, handleSocketError, hs]
      | cons c rest =>
          by_cases hc : c = 4
          · subst hc
            simp [loopStep, handleSocketError]
          · simp [loopStep, handleSocketError, hc, hs]
  | otherExc => simp [loopStep, hs]

theorem C8_per_message_isolation_witness :
    (loopStep testDigest (fun _ => (none : Option Nat)) (fun _ => none)
        (fun _ => true) listenerRunning (.conn [])).1 = listenerRunning ∧
      ((loopStep testDigest (fun _ => (none : Option Nat)) (fun _ => none)
          (fun _ => true) listenerRunning .otherExc).1.running = false ↔
        ∃ rest, SockEvent.otherExc = .sockErr (4 :: rest)) :=
  C8_per_message_isolation testDigest (fun _ => none) (fun _ => none)
    (fun _ => true) listenerRunning [] .otherExc rfl

/-- C9: constructing a receiver with a missing or empty key fails at once
with a ConfigurationError and succeeds on any non-empty key; the sender
likewise rejects, at construction, a missing or empty host, a
non-integer port, and a missing or empty key, and succeeds when host and
key are non-empty and the port is an integer. -/
theorem C9_construction_validation (k hostName : String) (portNum : Int)
    (flag : Bool) (hk : ¬k = "") (hh : ¬hostName = "") :
    listenerInit none flag = .error .configurationError ∧
      listenerInit (some "") flag = .error .configurationError ∧
      listenerInit (some k) flag =
        .ok { key := strToBytes k, allow_pickle := flag,
              running := false, sockClosed := false } ∧
      networkLoggerInit (ρ := Nat) (.str "") (.int portNum) (.str k) =
        .error .configurationError ∧
      networkLoggerInit (ρ := Nat) .missing (.int portNum) (.str k) =
        .error .configurationError ∧
      networkLoggerInit (ρ := Nat) (.str hostName) (.str "80") (.str k) =
        .error .configurationError ∧
      networkLoggerInit (ρ := Nat) (.str hostName) (.int portNum) (.str "") =
        .error .configurationError ∧
      networkLoggerInit (ρ := Nat) (.str hostName) (.int portNum) .missing =
        .error .configurationError ∧
      networkLoggerInit (ρ := Nat) (.str hostName) (.int portNum) (.str k) =
        .ok { host := hostName, port := portNum, key := strToBytes k,
              batch_data := [], doing_batch := false } := by
  refine ⟨rfl, rfl, ?_, ?_, rfl, ?_, ?_, ?_, ?_⟩
  · simp [listenerInit, hk]
  · simp [networkLoggerInit, getConfigStr]
  · simp [networkLoggerInit, getConfigStr, getConfigInt, hh]
  · simp [networkLoggerInit, getConfigStr, getConfigInt, hh]
  · simp [networkLoggerInit, getConfigStr, getConfigInt, hh]
  · simp [networkLoggerInit, getConfigStr, getConfigInt, hh, hk]

theorem C9_construction_validation_witness :
    listenerInit none true = .error .configurationError ∧
      listenerInit (some "") true = .error .configurationError ∧
      listenerInit (some "testkey") true =
        .ok { key := strToBytes "testkey", allow_pickle := true,
              running := false, sockClosed := false } ∧
      networkLoggerInit (ρ := Nat) (.str "") (.int 1234) (.str "testkey") =
        .error .configurationError ∧
      networkLoggerInit (ρ := Nat) .missing (.int 1234) (.str "testkey") =
        .error .configurationError ∧
      networkLoggerInit (ρ := Nat) (.str "example") (.str "80")
          (.str "testkey") = .error .configurationError ∧
      networkLoggerInit (ρ := Nat) (.str "example") (.int 1234) (.str "") =
        .error .configurationError ∧
      networkLoggerInit (ρ := Nat) (.str "example") (.int 1234) .missing =
        .error .configurationError ∧
      networkLoggerInit (ρ := Nat) (.str "example") (.int 1234)
          (.str "testkey") =
        .ok { host := "example", port := 1234, key := strToBytes "testkey",
              batch_data := [], doing_batch := false } :=
  C9_construction_validation "testkey" "example" 1234 true (by decide)
    (by decide)

/-- C10: when frame decoding fails — in particular on a digest mismatch —
the rest of the iteration is unreachable: the step's outcome is
independent of the JSON parser, the pickle parser and the aggregator
(none of them is invoked on the data), and nothing is delivered to the
aggregator. -/
theorem C10_mac_gates_parsing {α : Type} (D : DigestFn)
    (j₁ p₁ j₂ p₂ : List Nat → Option α) (a₁ a₂ : α → Bool)
    (s : ListenerState) (data : List Nat) (e : DecodeError)
    (hd : decode D s.key data = .error e) :
    loopStep D j₁ p₁ a₁ s (.conn data) =
        loopStep D j₂ p₂ a₂ s (.conn data) ∧
      (loopStep D j₁ p₁ a₁ s (.conn data)).2 = none := by
  constructor
  · simp [loopStep, hd]
  · simp [loopStep, hd]

theorem C10_mac_gates_parsing_witness :
    loopStep testDigest (fun _ => some 1) (fun _ => some 2) (fun _ => true)
        listenerRunning (.conn [2]) =
      loopStep testDigest (fun _ => (none : Option Nat)) (fun _ => none)
        (fun _ => false) listenerRunning (.conn [2]) ∧
      (loopStep testDigest (fun _ => some 1) (fun _ => some 2) (fun _ => true)
        listenerRunning (.conn [2])).2 = none :=
  C10_mac_gates_parsing testDigest (fun _ => some 1) (fun _ => some 2)
    (fun _ => none) (fun _ => none) (fun _ => true) (fun _ => false)
    listenerRunning [2] .authMismatch rfl

end NetworkLogging
